import Mathlib

/-!
Verification of the Lykke Ripple API operation-lifecycle engine.

Shallow embedding of the TypeScript sources:
* `common.ts` (validation helpers, address / uuid syntax, constants),
* `domain/operations.ts` (`OperationEntity`, `OperationRepository`),
* `controllers/transactionsController.ts` (`buildSingle`, `broadcast`,
  `getSingle`, `deleteBroadcasted`).

JavaScript numbers are modelled as `ℚ` (and `Int` where the source value is
always an integer), `undefined` as `Option.none`, and JS truthiness of
strings / numbers with explicit helpers (`""` and `0` are falsy).
Asynchronous collaborator calls (ledger client, log service, balance and
history repositories) are modelled as an explicit environment plus an event
trace appended to the state, so temporal ordering claims are expressible.
-/

namespace RippleApi

/-- Error codes, from `domain/operations.ts` (`enum ErrorCode`). -/
inductive ErrCode where
  | unknownCode
  | amountIsTooSmall
  | notEnoughBalance
  | buildingShouldBeRepeated
deriving DecidableEq, Repr

/-- Log levels, from `services/logService.ts` interface. -/
inductive LogLevel where
  | info
  | warning
  | error
deriving DecidableEq, Repr

/-- A thrown `BlockchainError(status, message, errorCode?, data?)`.
The `message` may be `undefined` in the source (`operation.Error` is passed
directly), hence `Option String`.  The optional diagnostic `data` payload is
not modelled. -/
structure BcError where
  status : Nat
  message : Option String
  errCode : Option ErrCode := none
deriving DecidableEq, Repr

/-- JS truthiness of an optional string: `undefined`/`null` and `""` are falsy. -/
def jsTruthyStr (o : Option String) : Bool :=
  match o with
  | some s => s != ""
  | none => false

/-- JS `a || b` for an optional string `a` (falsy when absent or empty). -/
def jsOrStr (a : Option String) (b : String) : String :=
  match a with
  | some s => if s = "" then b else s
  | none => b

/-- JS truthiness of an optional number: `undefined` and `0` are falsy. -/
def jsTruthyInt (o : Option Int) : Bool :=
  match o with
  | some n => n != 0
  | none => false

/-- JS `a || b` for an optional number `a` (falsy when absent or zero). -/
def jsOrInt (a : Option Int) (b : Int) : Int :=
  match a with
  | some n => if n = 0 then b else n
  | none => b

/-- `match a with some v => some v | none => b`; used for Azure merge fields. -/
def orElseOpt {α : Type} (a b : Option α) : Option α :=
  match a with
  | some v => some v
  | none => b

/-- Decimal digit run value; `none` when the run is empty. -/
def decDigitsVal (cs : List Char) : Option Nat :=
  let ds := cs.takeWhile Char.isDigit
  if ds.isEmpty then none
  else some (ds.foldl (fun a c => a * 10 + (c.toNat - 48)) 0)

/-- Hexadecimal digit test (both cases), as in the JS `parseInt` hex mode. -/
def hexChar (c : Char) : Bool :=
  c.isDigit || ('a' ≤ c && c ≤ 'f') || ('A' ≤ c && c ≤ 'F')

/-- Value of one hexadecimal digit. -/
def hexCharVal (c : Char) : Nat :=
  if c.isDigit then c.toNat - 48
  else if 'a' ≤ c && c ≤ 'f' then c.toNat - 87
  else c.toNat - 55

/-- Hexadecimal digit run value; `none` when the run is empty. -/
def hexDigitsVal (cs : List Char) : Option Nat :=
  let ds := cs.takeWhile hexChar
  if ds.isEmpty then none
  else some (ds.foldl (fun a c => a * 16 + hexCharVal c) 0)

/-- Magnitude part of JS `parseInt` (radix unspecified): a leading `0x`/`0X`
switches to hexadecimal, otherwise leading decimal digits are taken and the
rest of the string is ignored; `none` models `NaN`. -/
def jsParseIntAbs (cs : List Char) : Option Nat :=
  match cs with
  | '0' :: x :: rest =>
    if x = 'x' ∨ x = 'X' then hexDigitsVal rest else decDigitsVal cs
  | _ => decDigitsVal cs

/-- JS `parseInt(s)`: skip leading whitespace, optional sign, then parse a
leading digit run (decimal, or hexadecimal after `0x`); `none` models `NaN`.
Exotic Unicode whitespace and double-precision rounding of very long digit
runs are not modelled. -/
def jsParseInt (s : String) : Option Int :=
  let cs := s.toList.dropWhile Char.isWhitespace
  match cs with
  | '-' :: rest => (jsParseIntAbs rest).map (fun n => -(n : Int))
  | '+' :: rest => (jsParseIntAbs rest).map (fun n => (n : Int))
  | _ => (jsParseIntAbs cs).map (fun n => (n : Int))

/-- `operation.OperationId.replace(/[{}-]/g, "")` from `broadcast`. -/
def normalizeOperationId (s : String) : String :=
  String.mk (s.toList.filter (fun c => c ≠ '{' ∧ c ≠ '}' ∧ c ≠ '-'))

/-- Version nibble of a UUID: `[1-5]`. -/
def uuidVersionChar (c : Char) : Bool :=
  c = '1' || c = '2' || c = '3' || c = '4' || c = '5'

/-- Variant nibble of a UUID: `[89ab]`, case-insensitive. -/
def uuidVariantChar (c : Char) : Bool :=
  c = '8' || c = '9' || c = 'a' || c = 'b' || c = 'A' || c = 'B'

/-- `isUuid` from `common.ts`: the anchored case-insensitive pattern
`[0-9a-f]x8 - [0-9a-f]x4 - [1-5][0-9a-f]x3 - [89ab][0-9a-f]x3 - [0-9a-f]x12`,
written out over the 36-character shape. -/
def isUuid (s : String) : Bool :=
  let cs := s.toList
  cs.length == 36 &&
  (List.range 36).all (fun i =>
    if i = 8 ∨ i = 13 ∨ i = 18 ∨ i = 23 then cs.getD i ' ' == '-'
    else if i = 14 then uuidVersionChar (cs.getD i ' ')
    else if i = 19 then uuidVariantChar (cs.getD i ' ')
    else hexChar (cs.getD i ' '))

/-- Split a character list at every occurrence of `sep` (JS `String.split`
semantics: no separator yields one piece, a leading or trailing separator
yields an empty piece). -/
def splitCharsOn (sep : Char) : List Char → List (List Char)
  | [] => [[]]
  | c :: rest =>
    let r := splitCharsOn sep rest
    if c = sep then [] :: r
    else
      match r with
      | h :: t => (c :: h) :: t
      | [] => [[c]]

/-- `ADDRESS_SEPARATOR` split: `fromAddress.split("+")` destructured into the
base address and the optional destination tag. -/
def splitAddress (s : String) : String × Option String :=
  let parts := (splitCharsOn '+' s.toList).map String.mk
  (parts.headD "", parts.get? 1)

/-- `s.startsWith(p)` over the character lists. -/
def strStartsWith (s p : String) : Bool :=
  p.toList.isPrefixOf s.toList

/-- `DUMMY_TX` sentinel payload from `common.ts`. -/
def DUMMY_TX : String := "dummy_tx"

/-- `XRP` native asset id from `common.ts`. -/
def XRP : String := "XRP"

/-- `XRP_ACCURACY` from `common.ts`. -/
def XRP_ACCURACY : Nat := 6

/-- `OperationEntity` from `domain/operations.ts`.  Table-storage columns
that are absent until written are `Option`; `OperationId` is the partition
key.  (The entity has no `BlockchainError` column.) -/
structure OperationEntity where
  OperationId : String
  AssetId : String := ""
  FromAddress : String := ""
  ToAddress : String := ""
  Amount : Option ℚ := none
  AmountInBaseUnit : Option Int := none
  Fee : Option ℚ := none
  FeeInBaseUnit : Option ℚ := none
  BuildTime : Option Nat := none
  SendTime : Option Nat := none
  TxId : Option String := none
  CompletionTime : Option Nat := none
  BlockTime : Option Nat := none
  Block : Option Int := none
  Expiration : Option Int := none
  FailTime : Option Nat := none
  Error : Option String := none
  ErrCodeField : Option ErrCode := none
  DeleteTime : Option Nat := none
deriving DecidableEq, Repr

/-- `isRunning` getter from `domain/operations.ts`. -/
def OperationEntity.isRunning (op : OperationEntity) : Bool :=
  op.SendTime.isSome || op.CompletionTime.isSome || op.FailTime.isSome

/-- The argument record of `OperationRepository.update`: exactly the nine
optional fields its signature lists.  The controller sometimes passes an
extra `blockchainError` property; `update` never reads it, so it has no
counterpart here and such calls carry an empty record. -/
structure OperationUpdate where
  sendTime : Option Nat := none
  completionTime : Option Nat := none
  failTime : Option Nat := none
  deleteTime : Option Nat := none
  txId : Option String := none
  blockTime : Option Nat := none
  block : Option Int := none
  errorMsg : Option String := none
  errCode : Option ErrCode := none
deriving DecidableEq, Repr

/-- Modelled from the spec: the Azure table `insertOrMerge` used by
`OperationRepository` (the `domain/azure.ts` base class is not in the
sources).  Per the spec's Operation Store contract, a merge overwrites
exactly the properties the written entity defines and keeps every other
stored column; an update record field that is `none` (JS `undefined`) is
not sent and leaves the stored column unchanged. -/
def mergeOperation (old : OperationEntity) (u : OperationUpdate) : OperationEntity :=
  { old with
    SendTime := orElseOpt u.sendTime old.SendTime
    CompletionTime := orElseOpt u.completionTime old.CompletionTime
    FailTime := orElseOpt u.failTime old.FailTime
    DeleteTime := orElseOpt u.deleteTime old.DeleteTime
    TxId := orElseOpt u.txId old.TxId
    BlockTime := orElseOpt u.blockTime old.BlockTime
    Block := orElseOpt u.block old.Block
    Error := orElseOpt u.errorMsg old.Error
    ErrCodeField := orElseOpt u.errCode old.ErrCodeField }

/-- One recorded `balanceRepository.upsert` call (spec §6 Balance
collaborator interface; the repository itself is an external collaborator). -/
structure BalanceChange where
  address : String
  assetId : String
  operationId : String
  affix : Option ℚ
  affixInBaseUnit : Option Int
  block : Int
deriving DecidableEq, Repr

/-- One recorded `historyRepository.upsert` call (spec §6 History
collaborator interface). -/
structure HistoryRecord where
  fromAddress : String
  toAddress : String
  assetId : String
  amount : Option ℚ
  amountInBaseUnit : Option Int
  block : Int
  blockTime : Nat
  txId : String
  operationId : String
deriving DecidableEq, Repr

/-- Observable events of one request execution, in call order. -/
inductive Ev where
  | indexWrite (txId operationId : String)
  | expirationWrite (expiration : Int) (operationId : String)
  | opUpsert (operationId : String)
  | opUpdate (operationId : String) (u : OperationUpdate)
  | submit (signedTx : String)
  | balanceUpsert (b : BalanceChange)
  | historyUpsert (h : HistoryRecord)
  | logWrite (level : LogLevel) (message context : String)
deriving DecidableEq, Repr

/-- Durable state of the Operation Store plus the event trace. -/
structure ApiState where
  operations : List (String × OperationEntity) := []
  opByTxId : List (String × String) := []
  opByExpiration : List (Int × String) := []
  events : List Ev := []
deriving Repr

/-- `OperationRepository.get`: partition-key lookup (most recent write wins;
the store is modelled as a front-extended association list). -/
def getOp (s : ApiState) (operationId : String) : Option OperationEntity :=
  (s.operations.find? (fun p => p.1 == operationId)).map (fun p => p.2)

/-- `OperationRepository.getOperationIdByTxId`: index lookup, `null` when
absent. -/
def getOperationIdByTxId (s : ApiState) (txId : String) : Option String :=
  (s.opByTxId.find? (fun p => p.1 == txId)).map (fun p => p.2)

/-- Append one event to the trace. -/
def emit (s : ApiState) (e : Ev) : ApiState :=
  { s with events := s.events ++ [e] }

/-- `logService.write` (external collaborator): recorded as an event. -/
def logWrite (s : ApiState) (lvl : LogLevel) (message context : String) : ApiState :=
  emit s (Ev.logWrite lvl message context)

/-- `OperationRepository.update` from `domain/operations.ts`: when the record
carries a truthy `txId`, first insert-or-merge the `OperationByTxId` index
entry, then insert-or-merge the nine listed columns of the operation row. -/
def repoUpdate (s : ApiState) (operationId : String) (u : OperationUpdate) : ApiState :=
  let s1 :=
    if jsTruthyStr u.txId then
      { s with
        opByTxId := (u.txId.getD "", operationId) :: s.opByTxId,
        events := s.events ++ [Ev.indexWrite (u.txId.getD "") operationId] }
    else s
  let old := (getOp s operationId).getD { OperationId := operationId }
  { s1 with
    operations := (operationId, mergeOperation old u) :: s1.operations,
    events := s1.events ++ [Ev.opUpdate operationId u] }

/-- `OperationRepository.upsert` from `domain/operations.ts`: insert-or-merge
the build-time columns of the operation row, then, when the expiration is
truthy, insert the `OperationByExpiration` index entry keyed by it. -/
def repoUpsert (s : ApiState) (operationId assetId fromAddress toAddress : String)
    (amount : ℚ) (amountInBaseUnit : Int) (fee : ℚ) (feeInBaseUnit : ℚ)
    (expiration : Option Int) (now : Nat) : ApiState :=
  let old := (getOp s operationId).getD { OperationId := operationId }
  let merged : OperationEntity :=
    { old with
      AssetId := assetId
      FromAddress := fromAddress
      ToAddress := toAddress
      Amount := some amount
      AmountInBaseUnit := some amountInBaseUnit
      BuildTime := some now
      Expiration := orElseOpt expiration old.Expiration
      Fee := some fee
      FeeInBaseUnit := some feeInBaseUnit }
  let s1 :=
    { s with
      operations := (operationId, merged) :: s.operations,
      events := s.events ++ [Ev.opUpsert operationId] }
  if jsTruthyInt expiration then
    { s1 with
      opByExpiration := (expiration.getD 0, operationId) :: s1.opByExpiration,
      events := s1.events ++ [Ev.expirationWrite (expiration.getD 0) operationId] }
  else s1

/-- The decoded base64 payload of a broadcast request
(`SignedTransactionModel` in the controller): either a real signed
transaction string, or a correlation id, or both.  Base64/JSON decoding is a
bijection on well-formed payloads and is not modelled. -/
structure SignedTransactionModel where
  signedTransaction : Option String := none
  id : Option String := none
deriving DecidableEq, Repr

/-- External world observed during one `broadcast` call: the wall clock, the
ledger's current version, and the result code `rippleService.submit` would
return for the payload. -/
structure BroadcastEnv where
  now : Nat
  ledgerVersion : Int
  submitResult : String
deriving DecidableEq, Repr

/-- The user-visible states of the controller's `State` enum. -/
inductive TxState where
  | inProgress
  | completed
  | failed
deriving DecidableEq, Repr

/-- `getState` from the controller: `failed` if FailTime is set, else
`completed` if CompletionTime is set, else `inProgress`. -/
def getState (op : OperationEntity) : TxState :=
  if op.FailTime.isSome then TxState.failed
  else if op.CompletionTime.isSome then TxState.completed
  else TxState.inProgress

/-- String rendering of a `TxState`, as interpolated into error messages. -/
def stateText : TxState → String
  | TxState.inProgress => "inProgress"
  | TxState.completed => "completed"
  | TxState.failed => "failed"

/-- `getTimestamp` from the controller: `FailTime || CompletionTime || SendTime`
(JS `Date` objects are always truthy, so this is option-or). -/
def getTimestamp (op : OperationEntity) : Option Nat :=
  orElseOpt op.FailTime (orElseOpt op.CompletionTime op.SendTime)

/-- `broadcast` from `controllers/transactionsController.ts`, POST
`/transactions/broadcast`.  The log context for the two balance-change log
lines is the serialized change in the source; the model records the txId. -/
def broadcast (s : ApiState) (operationId : String) (data : SignedTransactionModel)
    (env : BroadcastEnv) : ApiState × Except BcError String :=
  match getOp s operationId with
  | none =>
    (s, Except.error { status := 400, message := some ("Unknown operation [" ++ operationId ++ "]") })
  | some operation =>
    if operation.FailTime.isSome then
      (s, Except.error { status := 400, message := operation.Error, errCode := operation.ErrCodeField })
    else if operation.SendTime.isSome || operation.CompletionTime.isSome then
      (s, Except.error { status := 409,
                         message := some ("Operation [" ++ operationId ++ "] already " ++ stateText (getState operation)) })
    else
      let sendTime := env.now
      let block := jsOrInt operation.Block (env.ledgerVersion * 10 + 1)
      let blockTime := operation.BlockTime.getD sendTime
      let completionTime := operation.CompletionTime.getD sendTime
      let txId := jsOrStr data.id (normalizeOperationId operation.OperationId)
      let operationIdByTxId := getOperationIdByTxId s txId
      if jsTruthyStr operationIdByTxId && operationIdByTxId != some operation.OperationId then
        let s1 := logWrite s LogLevel.warning "Duplicated transaction hash" txId
        let s2 := repoUpdate s1 operation.OperationId {}
        (s2, Except.error { status := 400, message := some "Duplicated transaction hash",
                            errCode := some ErrCode.buildingShouldBeRepeated })
      else
        let s1 := repoUpdate s operation.OperationId { txId := some txId }
        if jsTruthyStr data.signedTransaction then
          let s2 := emit s1 (Ev.submit (data.signedTransaction.getD ""))
          let resultCode := env.submitResult
          let s3 :=
            if resultCode != "tesSUCCESS" then
              repoUpdate (logWrite s2 LogLevel.warning "BlockchainError" resultCode)
                operation.OperationId {}
            else s2
          if resultCode = "tefPAST_SEQ" ∨ resultCode = "tefMAX_LEDGER" then
            (s3, Except.error { status := 400, message := some "Transaction rejected",
                                errCode := some ErrCode.buildingShouldBeRepeated })
          else if strStartsWith resultCode "tem" then
            (s3, Except.error { status := 400, message := some "Transaction rejected",
                                errCode := some ErrCode.unknownCode })
          else
            (repoUpdate s3 operation.OperationId { sendTime := some sendTime }, Except.ok txId)
        else
          let bc1 : BalanceChange :=
            { address := operation.FromAddress, assetId := operation.AssetId,
              operationId := operation.OperationId,
              affix := operation.Amount.map (fun a => -a),
              affixInBaseUnit := operation.AmountInBaseUnit.map (fun n => -n),
              block := block }
          let bc2 : BalanceChange :=
            { address := operation.ToAddress, assetId := operation.AssetId,
              operationId := operation.OperationId,
              affix := operation.Amount,
              affixInBaseUnit := operation.AmountInBaseUnit,
              block := block }
          let s2 := logWrite (emit s1 (Ev.balanceUpsert bc1)) LogLevel.info
            "Balance change recorded" txId
          let s3 := logWrite (emit s2 (Ev.balanceUpsert bc2)) LogLevel.info
            "Balance change recorded" txId
          let hr : HistoryRecord :=
            { fromAddress := operation.FromAddress, toAddress := operation.ToAddress,
              assetId := operation.AssetId, amount := operation.Amount,
              amountInBaseUnit := operation.AmountInBaseUnit,
              block := block, blockTime := blockTime, txId := txId,
              operationId := operation.OperationId }
          let s4 := emit s3 (Ev.historyUpsert hr)
          let s5 := repoUpdate s4 operation.OperationId
            { sendTime := some sendTime, completionTime := some completionTime,
              blockTime := some blockTime, block := some block }
          (s5, Except.ok txId)

/-- Asset record of the spec's Asset collaborator. -/
structure Asset where
  AssetId : String
  Address : String
  Accuracy : Nat
  Name : String
deriving DecidableEq, Repr

/-- Modelled from the spec: `asset.fromBaseUnit`, owned by the external Asset
collaborator (`domain/assets.ts` is not in the sources) — the conversion
derived from `Accuracy`, base units divided by `10^Accuracy`. -/
def Asset.fromBaseUnit (a : Asset) (n : Int) : ℚ :=
  (n : ℚ) / (10 : ℚ) ^ a.Accuracy

/-- `BuildSingleRequest` body of POST `/transactions/single`
(`fromAddressContext` is unused by the handler and omitted). -/
structure BuildSingleRequest where
  operationId : String
  fromAddress : String
  toAddress : String
  assetId : String
  amount : String
  includeFee : Option Bool := none
deriving DecidableEq, Repr

/-- JS truthiness of the optional `includeFee` flag. -/
def jsTruthyBool (o : Option Bool) : Bool :=
  o.getD false

/-- External world observed during one `buildSingle` call: the asset registry,
the balance repository content, the ledger fee quote (already parsed, as
`parseFloat` of the adapter's string), the ledger balances of the source
account (values parsed likewise), the payload `preparePayment` would return,
and the configured reserve. -/
structure BuildEnv where
  assets : List (String × Asset)
  accountBalances : List ((String × String) × Int)
  feeAmount : ℚ
  ledgerBalances : List (String × ℚ)
  prepareMaxLedgerVersion : Int
  prepareTxJSON : String
  reserve : Option ℚ
  now : Nat
deriving DecidableEq, Repr

/-- `assetRepository.get` (external collaborator, keyed lookup). -/
def lookupAsset (l : List (String × Asset)) (assetId : String) : Option Asset :=
  (l.find? (fun p => p.1 == assetId)).map (fun p => p.2)

/-- `balanceRepository.get(address, assetId)` returning `AmountInBaseUnit`. -/
def lookupAccountBalance (l : List ((String × String) × Int))
    (address assetId : String) : Option Int :=
  (l.find? (fun p => p.1.1 == address && p.1.2 == assetId)).map (fun p => p.2)

/-- The balances object built by the controller's `reduce` over
`rippleService.getBalances(from)`: later entries for the same currency
overwrite earlier ones. -/
def lookupLedgerBalance (l : List (String × ℚ)) (currency : String) : Option ℚ :=
  (l.reverse.find? (fun p => p.1 == currency)).map (fun p => p.2)

/-- One step of the controller's balance-sufficiency loop:
`!balances[k] || balances[k] < required[k]` — the balance is missing, zero
(JS falsy), or below the requirement. -/
def insufficientBalance (bals : List (String × ℚ)) (currency : String) (req : ℚ) : Bool :=
  match lookupLedgerBalance bals currency with
  | none => true
  | some v => v == 0 || v < req

/-- The `Invalid amount [x]` failure of `buildSingle` (no `ErrorCode`). -/
def invalidAmountError (amount : String) : BcError :=
  { status := 400, message := some ("Invalid amount [" ++ amount ++ "]") }

/-- Tail of `buildSingle`'s cross-address path: the balance-sufficiency loop
over the `required` map (keys in insertion order), then `preparePayment`,
whose `maxLedgerVersion` times 10 becomes the expiration, then the upsert.
The source returns `toBase64(tx)`; the model returns `tx`. -/
def buildSingleFinish (s : ApiState) (req : BuildSingleRequest) (env : BuildEnv)
    (amount : ℚ) (amountInBaseUnit : Int) (fee feeInBaseUnit : ℚ)
    (required : List (String × ℚ)) (fromBase : String) : ApiState × Except BcError String :=
  match required.find? (fun p => insufficientBalance env.ledgerBalances p.1 p.2) with
  | some p =>
    (s, Except.error { status := 400,
                       message := some ("Not enough [" ++ p.1 ++ "] on address [" ++ fromBase ++ "]"),
                       errCode := some ErrCode.notEnoughBalance })
  | none =>
    let expiration := env.prepareMaxLedgerVersion * 10
    (repoUpsert s req.operationId req.assetId req.fromAddress req.toAddress
      amount amountInBaseUnit fee feeInBaseUnit (some expiration) env.now,
     Except.ok env.prepareTxJSON)

/-- Body of `buildSingle` after the conflict, asset and amount guards.
The `Amount [x] is less than fee [y]` message's numeric interpolation is not
modelled; the failure is identified by `ErrorCode.amountIsTooSmall`. -/
def buildSingleCore (s : ApiState) (req : BuildSingleRequest) (env : BuildEnv)
    (asset : Asset) (amountInBaseUnit : Int) : ApiState × Except BcError String :=
  let amount0 := asset.fromBaseUnit amountInBaseUnit
  let fromBase := (splitAddress req.fromAddress).1
  let toBase := (splitAddress req.toAddress).1
  if fromBase = toBase then
    let balance := lookupAccountBalance env.accountBalances req.fromAddress req.assetId
    let balanceInBaseUnit := balance.getD 0
    if balanceInBaseUnit < amountInBaseUnit then
      (s, Except.error { status := 400,
                         message := some ("Not enough [" ++ req.assetId ++ "] on address [" ++ req.fromAddress ++ "]"),
                         errCode := some ErrCode.notEnoughBalance })
    else
      (repoUpsert s req.operationId req.assetId req.fromAddress req.toAddress
        amount0 amountInBaseUnit 0 0 none env.now,
       Except.ok DUMMY_TX)
  else
    let fee := env.feeAmount
    let feeInBaseUnit := fee * (10 : ℚ) ^ XRP_ACCURACY
    if req.assetId = XRP then
      if jsTruthyBool req.includeFee ∧ amount0 < fee then
        (s, Except.error { status := 400, message := some "Amount is less than fee",
                           errCode := some ErrCode.amountIsTooSmall })
      else
        let amount := if jsTruthyBool req.includeFee then amount0 - fee else amount0
        buildSingleFinish s req env amount amountInBaseUnit fee feeInBaseUnit
          [(XRP, env.reserve.getD 0 + amount + fee)] fromBase
    else
      buildSingleFinish s req env amount0 amountInBaseUnit fee feeInBaseUnit
        [(XRP, env.reserve.getD 0 + fee), (req.assetId, amount0)] fromBase

/-- `buildSingle`'s asset and amount guards (run after the conflict guard):
unknown asset, then `parseInt` of the amount with the
NaN-or-nonpositive check. -/
def buildSingleChecked (s : ApiState) (req : BuildSingleRequest) (env : BuildEnv) :
    ApiState × Except BcError String :=
  match lookupAsset env.assets req.assetId with
  | none =>
    (s, Except.error { status := 400, message := some ("Unknown asset [" ++ req.assetId ++ "]") })
  | some asset =>
    match jsParseInt req.amount with
    | none => (s, Except.error (invalidAmountError req.amount))
    | some amountInBaseUnit =>
      if amountInBaseUnit ≤ 0 then (s, Except.error (invalidAmountError req.amount))
      else buildSingleCore s req env asset amountInBaseUnit

/-- `buildSingle` from `controllers/transactionsController.ts`, POST
`/transactions/single`. -/
def buildSingle (s : ApiState) (req : BuildSingleRequest) (env : BuildEnv) :
    ApiState × Except BcError String :=
  match getOp s req.operationId with
  | some operation =>
    if operation.isRunning then
      (s, Except.error { status := 409,
                         message := some ("Operation [" ++ req.operationId ++ "] already " ++ stateText (getState operation)) })
    else buildSingleChecked s req env
  | none => buildSingleChecked s req env

/-- The response body of GET `/transactions/broadcast/single/:operationId`.
`amount`/`fee` keep the raw numbers (the `toFixed` string rendering is not
modelled); the `blockchainErr` column does not exist on `OperationEntity`,
so the source's read of it yields `undefined`. -/
structure StatusResponse where
  operationId : String
  state : TxState
  timestamp : Option Nat
  amount : Option Int
  fee : Option ℚ
  hash : Option String
  block : Option Int
  errorMsg : Option String
  errCode : Option ErrCode
  blockchainErr : Option String
deriving DecidableEq, Repr

/-- `getSingle` from the controller, GET
`/transactions/broadcast/single/:operationId` (the spec's `getStatus`). -/
def getSingle (s : ApiState) (operationId : String) : Option StatusResponse :=
  match getOp s operationId with
  | some operation =>
    if operation.isRunning then
      some { operationId := operationId
             state := getState operation
             timestamp := getTimestamp operation
             amount := operation.AmountInBaseUnit
             fee := operation.FeeInBaseUnit
             hash := operation.TxId
             block := operation.Block
             errorMsg := operation.Error
             errCode := operation.ErrCodeField
             blockchainErr := none }
    else none
  | none => none

/-- `deleteBroadcasted` from the controller, DELETE
`/transactions/broadcast/:operationId`: a single repository update setting
`deleteTime`; the handler has no failure path and answers 200. -/
def deleteBroadcasted (s : ApiState) (operationId : String) (now : Nat) :
    ApiState × Except BcError Unit :=
  (repoUpdate s operationId { deleteTime := some now }, Except.ok ())

/-- Projection of a balance-upsert event. -/
def evBalance : Ev → Option BalanceChange
  | Ev.balanceUpsert b => some b
  | _ => none

/-- Base-unit delta of a balance-upsert event (0 when the stored amount was
undefined, only for summation purposes). -/
def evBalanceBase : Ev → Option Int
  | Ev.balanceUpsert b => some (b.affixInBaseUnit.getD 0)
  | _ => none

/-- Projection of a history-upsert event. -/
def evHistory : Ev → Option HistoryRecord
  | Ev.historyUpsert h => some h
  | _ => none

/-! ### Concrete fixtures for counterexamples and witnesses -/

def uuidA : String := "aaaaaaaa-aaaa-1aaa-8aaa-aaaaaaaaaaaa"

/-- A built, not-yet-running same-owner operation. -/
def opA : OperationEntity :=
  { OperationId := uuidA, AssetId := "XRP", FromAddress := "rFROM", ToAddress := "rFROM",
    Amount := some 1, AmountInBaseUnit := some 1000000, Fee := some 0, FeeInBaseUnit := some 0,
    BuildTime := some 10 }

def stateA : ApiState := { operations := [(uuidA, opA)] }

/-- Like `stateA`, but the hash "c1" is already indexed to another operation. -/
def stateDup : ApiState :=
  { operations := [(uuidA, opA)], opByTxId := [("c1", "other-operation")] }

def envOk : BroadcastEnv := { now := 100, ledgerVersion := 42, submitResult := "tesSUCCESS" }

def envTer : BroadcastEnv := { now := 100, ledgerVersion := 42, submitResult := "terQUEUED" }

def envTef : BroadcastEnv := { now := 100, ledgerVersion := 42, submitResult := "tefPAST_SEQ" }

def envTefMax : BroadcastEnv := { now := 100, ledgerVersion := 42, submitResult := "tefMAX_LEDGER" }

def envTem : BroadcastEnv := { now := 100, ledgerVersion := 42, submitResult := "temBAD_FEE" }

def uuidB : String := "bbbbbbbb-bbbb-1bbb-8bbb-bbbbbbbbbbbb"

/-- The native asset with its real accuracy of 6. -/
def assetXrp6 : Asset := { AssetId := "XRP", Address := "", Accuracy := 6, Name := "XRP" }

/-- The native asset registered with accuracy 0 (the registry is
environment-supplied; accuracy 0 keeps the witness arithmetic integral). -/
def assetXrp0 : Asset := { AssetId := "XRP", Address := "", Accuracy := 0, Name := "XRP" }

/-- Build environment for a same-owner build: 100 base units on the account. -/
def benvSim : BuildEnv :=
  { assets := [("XRP", assetXrp6)], accountBalances := [(("rFROM", "XRP"), 100)],
    feeAmount := 0, ledgerBalances := [], prepareMaxLedgerVersion := 7,
    prepareTxJSON := "TXJSON", reserve := none, now := 50 }

/-- Build environment for a cross-address build with ample ledger balance. -/
def benvCross : BuildEnv :=
  { assets := [("XRP", assetXrp0)], accountBalances := [],
    feeAmount := 0, ledgerBalances := [("XRP", 500)], prepareMaxLedgerVersion := 7,
    prepareTxJSON := "TXJSON", reserve := some 0, now := 50 }

/-- A same-owner build request with the fractional amount string "5.7". -/
def reqFrac : BuildSingleRequest :=
  { operationId := uuidB, fromAddress := "rFROM", toAddress := "rFROM",
    assetId := "XRP", amount := "5.7" }

/-- A cross-address build request for 100 base units. -/
def reqCross : BuildSingleRequest :=
  { operationId := uuidB, fromAddress := "rFROM", toAddress := "rTO",
    assetId := "XRP", amount := "100" }

/-- A build request with a non-numeric amount string. -/
def reqBad : BuildSingleRequest :=
  { operationId := uuidB, fromAddress := "rFROM", toAddress := "rTO",
    assetId := "XRP", amount := "abc" }


/-! ### Helper lemmas -/

theorem mergeOperation_empty (op : OperationEntity) : mergeOperation op {} = op := rfl

theorem hexChar_survives (c : Char) (h : hexChar c = true) :
    (c ≠ '{' ∧ c ≠ '}' ∧ c ≠ '-') := by
  refine ⟨?_, ?_, ?_⟩ <;> rintro rfl <;> exact absurd h (by decide)

theorem normalizeOperationId_ne_empty (s : String) (h : isUuid s = true) :
    normalizeOperationId s ≠ "" := by
  unfold isUuid at h
  rw [Bool.and_eq_true] at h
  obtain ⟨hlen, hall⟩ := h
  have h0 : (0 : Nat) ∈ List.range 36 := by decide
  have hc := List.all_eq_true.mp hall 0 h0
  simp only [show ¬((0 : Nat) = 8 ∨ (0 : Nat) = 13 ∨ (0 : Nat) = 18 ∨ (0 : Nat) = 23) by decide,
    if_false, show ((0 : Nat) = 14) = False by simp, show ((0 : Nat) = 19) = False by simp,
    if_neg] at hc
  cases hcs : s.toList with
  | nil => rw [hcs] at hlen; exact absurd hlen (by decide)
  | cons c t =>
    rw [hcs] at hc
    simp only [List.getD, List.get?] at hc
    have hsur := hexChar_survives c hc
    unfold normalizeOperationId
    rw [hcs]
    intro hcontra
    rw [List.filter_cons, if_pos (by simpa using hsur)] at hcontra
    exact absurd (congrArg String.data hcontra) (by simp)

theorem jsTruthyStr_none : jsTruthyStr none = false := rfl

theorem jsTruthyStr_some (v : String) : jsTruthyStr (some v) = (v != "") := rfl

theorem isSome_false_eq_none {α : Type} {o : Option α} (h : o.isSome = false) : o = none := by
  cases o <;> simp_all

theorem getOp_repoUpdate (s : ApiState) (oid : String) (u : OperationUpdate) (id : String) :
    getOp (repoUpdate s oid u) id =
      if id = oid then some (mergeOperation ((getOp s oid).getD { OperationId := oid }) u)
      else getOp s id := by
  unfold repoUpdate getOp
  by_cases ht : jsTruthyStr u.txId <;>
    by_cases hid : id = oid <;>
    simp only [ht, if_true, if_false, Bool.false_eq_true, List.find?]
  · subst hid; simp
  · rw [show (oid == id) = false by simpa using fun h => hid h.symm]; simp [hid]
  · subst hid; simp
  · rw [show (oid == id) = false by simpa using fun h => hid h.symm]; simp [hid]

theorem events_repoUpdate (s : ApiState) (oid : String) (u : OperationUpdate) :
    (repoUpdate s oid u).events =
      s.events ++ (if jsTruthyStr u.txId then [Ev.indexWrite (u.txId.getD "") oid] else []) ++
        [Ev.opUpdate oid u] := by
  unfold repoUpdate
  by_cases ht : jsTruthyStr u.txId <;> simp [ht]

theorem opByTxId_repoUpdate (s : ApiState) (oid : String) (u : OperationUpdate) :
    (repoUpdate s oid u).opByTxId =
      (if jsTruthyStr u.txId then [(u.txId.getD "", oid)] else []) ++ s.opByTxId := by
  unfold repoUpdate
  by_cases ht : jsTruthyStr u.txId <;> simp [ht]

theorem opByExpiration_repoUpdate (s : ApiState) (oid : String) (u : OperationUpdate) :
    (repoUpdate s oid u).opByExpiration = s.opByExpiration := by
  unfold repoUpdate
  by_cases ht : jsTruthyStr u.txId <;> simp [ht]

/-! ### Claim theorems -/

/-- C9: `getStatus` (GET `/transactions/broadcast/single/:operationId`)
returns `null` exactly when the operation does not exist or none of
SendTime, CompletionTime, FailTime is set; otherwise the reported state is
`failed` when FailTime is set, else `completed` when CompletionTime is set,
else `inProgress`, and the reported timestamp is FailTime, else
CompletionTime, else SendTime. -/
theorem getSingle_null_iff_and_state (s : ApiState) (operationId : String) :
    (getSingle s operationId = none ↔
      getOp s operationId = none ∨
      ∃ op, getOp s operationId = some op ∧
        op.SendTime = none ∧ op.CompletionTime = none ∧ op.FailTime = none) ∧
    (∀ op, getOp s operationId = some op → op.isRunning = true →
      ∃ r, getSingle s operationId = some r ∧
        r.state = (if op.FailTime.isSome then TxState.failed
                   else if op.CompletionTime.isSome then TxState.completed
                   else TxState.inProgress) ∧
        r.timestamp = orElseOpt op.FailTime (orElseOpt op.CompletionTime op.SendTime)) := by
  constructor
  · cases hgo : getOp s operationId with
    | none => simp [getSingle, hgo]
    | some op =>
      by_cases hrun : op.isRunning = true
      · simp only [getSingle, hgo, hrun, if_true, reduceCtorEq, false_iff]
        rintro (h | ⟨op', hop', hs, hc, hf⟩)
        · exact absurd h (by simp)
        · obtain rfl : op = op' := by injection hop'
          unfold OperationEntity.isRunning at hrun
          rw [hs, hc, hf] at hrun
          exact absurd hrun (by decide)
      · have hrun' : op.isRunning = false := by simpa using hrun
        unfold OperationEntity.isRunning at hrun'
        rw [Bool.or_eq_false_iff, Bool.or_eq_false_iff] at hrun'
        obtain ⟨⟨hs, hc⟩, hf⟩ := hrun'
        have hrun'' : op.isRunning = false := by
          unfold OperationEntity.isRunning; rw [hs, hc, hf]; rfl
        simp [getSingle, hgo, hrun'']
        exact ⟨isSome_false_eq_none hs, isSome_false_eq_none hc,
          isSome_false_eq_none hf⟩
  · intro op hop hrun
    refine ⟨{ operationId := operationId, state := getState op, timestamp := getTimestamp op,
              amount := op.AmountInBaseUnit, fee := op.FeeInBaseUnit, hash := op.TxId,
              block := op.Block, errorMsg := op.Error, errCode := op.ErrCodeField,
              blockchainErr := none }, ?_, rfl, rfl⟩
    simp [getSingle, hop, hrun]

/-- C9 witness: a concrete running operation is reported as completed with
its CompletionTime as timestamp, by the theorem applied at that state. -/
theorem getSingle_null_iff_and_state_witness :
    ∃ r, getSingle
        { operations := [("w9", { OperationId := "w9", CompletionTime := some 7, SendTime := some 3 })] }
        "w9" = some r ∧
      r.state = (if (none : Option Nat).isSome then TxState.failed
                 else if (some 7 : Option Nat).isSome then TxState.completed
                 else TxState.inProgress) ∧
      r.timestamp = orElseOpt none (orElseOpt (some 7) (some 3)) :=
  (getSingle_null_iff_and_state
      { operations := [("w9", { OperationId := "w9", CompletionTime := some 7, SendTime := some 3 })] }
      "w9").2
    { OperationId := "w9", CompletionTime := some 7, SendTime := some 3 } rfl rfl

/-- C10: `deleteBroadcasted` always succeeds, without any existence or state
check, and the stored operation afterwards is exactly the prior stored
operation (an empty row when none existed) with only DeleteTime changed;
no other operation row and neither secondary index is touched. -/
theorem deleteBroadcasted_frame (s : ApiState) (operationId : String) (now : Nat) :
    (deleteBroadcasted s operationId now).2 = Except.ok () ∧
    (∀ id, getOp (deleteBroadcasted s operationId now).1 id =
      if id = operationId then
        some { (getOp s operationId).getD { OperationId := operationId } with DeleteTime := some now }
      else getOp s id) ∧
    (deleteBroadcasted s operationId now).1.opByTxId = s.opByTxId ∧
    (deleteBroadcasted s operationId now).1.opByExpiration = s.opByExpiration := by
  refine ⟨rfl, ?_, ?_, ?_⟩
  · intro id
    show getOp (repoUpdate s operationId { deleteTime := some now }) id = _
    rw [getOp_repoUpdate]
    rfl
  · show (repoUpdate s operationId { deleteTime := some now }).opByTxId = _
    rw [opByTxId_repoUpdate]
    rfl
  · show (repoUpdate s operationId { deleteTime := some now }).opByExpiration = _
    exact opByExpiration_repoUpdate s operationId _

/-- C1: the `broadcast` guards.  When no operation exists the call fails with
the unknown-operation error; when FailTime is set the recorded Error and
ErrorCode are replayed; when SendTime or CompletionTime is set it fails 409
reporting the current state.  In each guard case the returned state is the
input state unchanged — no ledger submission, no simulated transfer, no
store write of any kind. -/
theorem broadcast_guard_cases (s : ApiState) (operationId : String)
    (data : SignedTransactionModel) (env : BroadcastEnv) :
    (getOp s operationId = none →
      broadcast s operationId data env =
        (s, Except.error { status := 400,
                           message := some ("Unknown operation [" ++ operationId ++ "]"),
                           errCode := none })) ∧
    (∀ op, getOp s operationId = some op → op.FailTime.isSome = true →
      broadcast s operationId data env =
        (s, Except.error { status := 400, message := op.Error, errCode := op.ErrCodeField })) ∧
    (∀ op, getOp s operationId = some op → op.FailTime = none →
      (op.SendTime.isSome = true ∨ op.CompletionTime.isSome = true) →
      broadcast s operationId data env =
        (s, Except.error { status := 409,
                           message := some ("Operation [" ++ operationId ++ "] already " ++
                             stateText (getState op)),
                           errCode := none })) := by
  refine ⟨?_, ?_, ?_⟩
  · intro h
    simp [broadcast, h]
  · intro op hop hfail
    simp [broadcast, hop, hfail]
  · intro op hop hfail hrun
    have hfail' : op.FailTime.isSome = false := by rw [hfail]; rfl
    have hor : (op.SendTime.isSome || op.CompletionTime.isSome) = true := by
      rcases hrun with h | h <;> simp [h]
    simp [broadcast, hop, hfail', hor]

/-- C1 witness: at a concrete state holding a failed operation, `broadcast`
replays the recorded error, by the theorem applied there. -/
theorem broadcast_guard_cases_witness :
    broadcast
        { operations := [("w1", { OperationId := "w1", FailTime := some 5,
                                  Error := some "boom", ErrCodeField := some ErrCode.unknownCode })] }
        "w1" { id := some "c" } { now := 9, ledgerVersion := 3, submitResult := "tesSUCCESS" } =
      ({ operations := [("w1", { OperationId := "w1", FailTime := some 5,
                                 Error := some "boom", ErrCodeField := some ErrCode.unknownCode })] },
       Except.error { status := 400, message := some "boom",
                      errCode := some ErrCode.unknownCode }) :=
  (broadcast_guard_cases
      { operations := [("w1", { OperationId := "w1", FailTime := some 5,
                                Error := some "boom", ErrCodeField := some ErrCode.unknownCode })] }
      "w1" { id := some "c" } { now := 9, ledgerVersion := 3, submitResult := "tesSUCCESS" }).2.1
    { OperationId := "w1", FailTime := some 5,
      Error := some "boom", ErrCodeField := some ErrCode.unknownCode } rfl rfl

/-- C2 counterexample: at a state whose OperationByTxId index maps the
candidate hash "c1" to a different operation, the duplicate-hash broadcast
fails as claimed, but the stored operation keeps FailTime, Error and
ErrorCode all unset — it is not marked Failed and no error is persisted,
contrary to the claim. -/
theorem broadcast_duplicate_hash_counterexample :
    (getOp (broadcast stateDup uuidA { id := some "c1" } envOk).1 uuidA).map
        (fun o => (o.FailTime, o.Error, o.ErrCodeField)) = some (none, none, none) ∧
    (broadcast stateDup uuidA { id := some "c1" } envOk).2 =
      Except.error { status := 400, message := some "Duplicated transaction hash",
                     errCode := some ErrCode.buildingShouldBeRepeated } :=
  ⟨by decide, rfl⟩

/-- C2 (amended): when the OperationByTxId index maps the candidate hash to a
different operation id, `broadcast` logs a warning and fails with the
`buildingShouldBeRepeated`-class duplicated-hash error without reaching the
submission step; the accompanying repository update carries no fields (the
controller's `blockchainError` property is not among the update's
parameters), so every stored operation — including this one — is unchanged,
and no FailTime is set and no index entry is written. -/
theorem broadcast_duplicate_hash (s : ApiState) (operationId : String)
    (data : SignedTransactionModel) (env : BroadcastEnv) (op : OperationEntity)
    (hop : getOp s operationId = some op)
    (hkey : op.OperationId = operationId)
    (hfail : op.FailTime = none) (hsend : op.SendTime = none) (hcomp : op.CompletionTime = none)
    (hdup : (jsTruthyStr (getOperationIdByTxId s
               (jsOrStr data.id (normalizeOperationId op.OperationId))) &&
             (getOperationIdByTxId s (jsOrStr data.id (normalizeOperationId op.OperationId)) !=
               some op.OperationId)) = true) :
    (broadcast s operationId data env).2 =
      Except.error { status := 400, message := some "Duplicated transaction hash",
                     errCode := some ErrCode.buildingShouldBeRepeated } ∧
    (∀ id, getOp (broadcast s operationId data env).1 id = getOp s id) ∧
    ((broadcast s operationId data env).1.events).drop s.events.length =
      [Ev.logWrite LogLevel.warning "Duplicated transaction hash"
         (jsOrStr data.id (normalizeOperationId op.OperationId)),
       Ev.opUpdate op.OperationId {}] ∧
    (broadcast s operationId data env).1.opByTxId = s.opByTxId := by
  have hfail' : op.FailTime.isSome = false := by rw [hfail]; rfl
  have hor : (op.SendTime.isSome || op.CompletionTime.isSome) = false := by
    rw [hsend, hcomp]; rfl
  have hb : broadcast s operationId data env =
      (repoUpdate (logWrite s LogLevel.warning "Duplicated transaction hash"
        (jsOrStr data.id (normalizeOperationId op.OperationId))) op.OperationId {},
       Except.error { status := 400, message := some "Duplicated transaction hash",
                      errCode := some ErrCode.buildingShouldBeRepeated }) := by
    simp [broadcast, hop, hfail', hor, hdup]
  refine ⟨by rw [hb], ?_, ?_, ?_⟩
  · intro id
    rw [hb]
    show getOp (repoUpdate (logWrite s _ _ _) op.OperationId {}) id = getOp s id
    rw [getOp_repoUpdate]
    have hgl : ∀ x, getOp (logWrite s LogLevel.warning "Duplicated transaction hash"
        (jsOrStr data.id (normalizeOperationId op.OperationId))) x = getOp s x := fun _ => rfl
    by_cases hid : id = op.OperationId
    · rw [if_pos hid, hgl, hkey, hop, hid, hkey, hop]
      rfl
    · rw [if_neg hid, hgl]
  · rw [hb]
    show ((repoUpdate (logWrite s _ _ _) op.OperationId {}).events).drop s.events.length = _
    rw [events_repoUpdate]
    show ((s.events ++ [_]) ++ (if jsTruthyStr none then _ else []) ++ [_]).drop s.events.length = _
    rw [if_neg (by decide), List.append_nil, List.append_assoc, List.drop_left]
    rfl
  · rw [hb]
    show (repoUpdate (logWrite s _ _ _) op.OperationId {}).opByTxId = _
    rw [opByTxId_repoUpdate, if_neg (by decide)]
    rfl

/-- C2 witness: the amended theorem applied at the concrete duplicate-hash
state shows no stored operation changes. -/
theorem broadcast_duplicate_hash_witness :
    getOp (broadcast stateDup uuidA { id := some "c1" } envOk).1 uuidA = getOp stateDup uuidA :=
  (broadcast_duplicate_hash stateDup uuidA { id := some "c1" } envOk opA
    rfl rfl rfl rfl rfl (by decide)).2.1 uuidA

/-- C3: at a concrete simulated broadcast whose decoded payload carries no
signed transaction but does carry the client-supplied correlation id "c1",
the code uses "c1" as the transaction hash — not the normalized OperationId,
which differs — and applies the simulated transfer under that hash. -/
theorem broadcast_simulated_txid_eval :
    (broadcast stateA uuidA { id := some "c1" } envOk).2 = Except.ok "c1" ∧
    normalizeOperationId uuidA = "aaaaaaaaaaaa1aaa8aaaaaaaaaaaaaaa" ∧
    "c1" ≠ normalizeOperationId uuidA ∧
    ((broadcast stateA uuidA { id := some "c1" } envOk).1.events.filterMap evHistory).map
      (fun h => h.txId) = ["c1"] :=
  ⟨rfl, by decide, by decide, by decide⟩

/-- C4: evaluation of the three submission-result classes.  For the ambiguous
rejection code `terQUEUED`, the call succeeds with the hash and SendTime is
recorded, but the stored operation keeps Error and ErrorCode unset — the
claimed BlockchainError annotation is not persisted (the repository update
drops the field); only a warning log records the code.  `tefPAST_SEQ` and
`tefMAX_LEDGER` fail with `buildingShouldBeRepeated` and leave SendTime
unset; a `tem`-prefixed code fails with the `unknown` class. -/
theorem broadcast_submit_result_eval :
    (broadcast stateA uuidA { signedTransaction := some "STX", id := some "H1" } envTer).2 =
      Except.ok "H1" ∧
    (getOp (broadcast stateA uuidA { signedTransaction := some "STX", id := some "H1" } envTer).1
        uuidA).map (fun o => (o.SendTime, o.Error, o.ErrCodeField)) =
      some (some 100, none, none) ∧
    Ev.logWrite LogLevel.warning "BlockchainError" "terQUEUED" ∈
      (broadcast stateA uuidA { signedTransaction := some "STX", id := some "H1" } envTer).1.events ∧
    (broadcast stateA uuidA { signedTransaction := some "STX", id := some "H1" } envTef).2 =
      Except.error { status := 400, message := some "Transaction rejected",
                     errCode := some ErrCode.buildingShouldBeRepeated } ∧
    (getOp (broadcast stateA uuidA { signedTransaction := some "STX", id := some "H1" } envTef).1
        uuidA).map (fun o => o.SendTime) = some none ∧
    (broadcast stateA uuidA { signedTransaction := some "STX", id := some "H1" } envTefMax).2 =
      Except.error { status := 400, message := some "Transaction rejected",
                     errCode := some ErrCode.buildingShouldBeRepeated } ∧
    (broadcast stateA uuidA { signedTransaction := some "STX", id := some "H1" } envTem).2 =
      Except.error { status := 400, message := some "Transaction rejected",
                     errCode := some ErrCode.unknownCode } :=
  ⟨rfl, by decide, by decide, rfl, by decide, rfl, rfl⟩

/-- C6: on the simulated path (no signed transaction in the payload), exactly
two balance deltas are recorded — `(-Amount, -AmountInBaseUnit)` against
FromAddress and `(+Amount, +AmountInBaseUnit)` against ToAddress, so the
base-unit deltas sum to zero — exactly one History record is appended, and
the final repository update sets SendTime, CompletionTime, BlockTime and
Block together. -/
theorem broadcast_simulated_conservation (s : ApiState) (operationId : String)
    (data : SignedTransactionModel) (env : BroadcastEnv) (op : OperationEntity)
    (a : ℚ) (n : Int)
    (hop : getOp s operationId = some op)
    (hfail : op.FailTime = none) (hsend : op.SendTime = none) (hcomp : op.CompletionTime = none)
    (hdup : (jsTruthyStr (getOperationIdByTxId s
               (jsOrStr data.id (normalizeOperationId op.OperationId))) &&
             (getOperationIdByTxId s (jsOrStr data.id (normalizeOperationId op.OperationId)) !=
               some op.OperationId)) = false)
    (hsim : jsTruthyStr data.signedTransaction = false)
    (hA : op.Amount = some a) (hN : op.AmountInBaseUnit = some n) :
    (((broadcast s operationId data env).1.events).drop s.events.length).filterMap evBalance =
      [{ address := op.FromAddress, assetId := op.AssetId, operationId := op.OperationId,
         affix := some (-a), affixInBaseUnit := some (-n),
         block := jsOrInt op.Block (env.ledgerVersion * 10 + 1) },
       { address := op.ToAddress, assetId := op.AssetId, operationId := op.OperationId,
         affix := some a, affixInBaseUnit := some n,
         block := jsOrInt op.Block (env.ledgerVersion * 10 + 1) }] ∧
    ((((broadcast s operationId data env).1.events).drop s.events.length).filterMap
      evBalanceBase).sum = 0 ∧
    (((broadcast s operationId data env).1.events).drop s.events.length).filterMap evHistory =
      [{ fromAddress := op.FromAddress, toAddress := op.ToAddress, assetId := op.AssetId,
         amount := some a, amountInBaseUnit := some n,
         block := jsOrInt op.Block (env.ledgerVersion * 10 + 1),
         blockTime := op.BlockTime.getD env.now,
         txId := jsOrStr data.id (normalizeOperationId op.OperationId),
         operationId := op.OperationId }] ∧
    ((((broadcast s operationId data env).1.events).drop s.events.length).getLast? =
      some (Ev.opUpdate op.OperationId
        { sendTime := some env.now, completionTime := some env.now,
          blockTime := some (op.BlockTime.getD env.now),
          block := some (jsOrInt op.Block (env.ledgerVersion * 10 + 1)) })) := by
  have hfail' : op.FailTime.isSome = false := by rw [hfail]; rfl
  have hor : (op.SendTime.isSome || op.CompletionTime.isSome) = false := by
    rw [hsend, hcomp]; rfl
  have hb : broadcast s operationId data env =
      (repoUpdate
        (emit
          (logWrite
            (emit
              (logWrite
                (emit
                  (repoUpdate s op.OperationId
                    { txId := some (jsOrStr data.id (normalizeOperationId op.OperationId)) })
                  (Ev.balanceUpsert
                    { address := op.FromAddress, assetId := op.AssetId,
                      operationId := op.OperationId, affix := some (-a),
                      affixInBaseUnit := some (-n),
                      block := jsOrInt op.Block (env.ledgerVersion * 10 + 1) }))
                LogLevel.info "Balance change recorded"
                (jsOrStr data.id (normalizeOperationId op.OperationId)))
              (Ev.balanceUpsert
                { address := op.ToAddress, assetId := op.AssetId,
                  operationId := op.OperationId, affix := some a, affixInBaseUnit := some n,
                  block := jsOrInt op.Block (env.ledgerVersion * 10 + 1) }))
            LogLevel.info "Balance change recorded"
            (jsOrStr data.id (normalizeOperationId op.OperationId)))
          (Ev.historyUpsert
            { fromAddress := op.FromAddress, toAddress := op.ToAddress, assetId := op.AssetId,
              amount := some a, amountInBaseUnit := some n,
              block := jsOrInt op.Block (env.ledgerVersion * 10 + 1),
              blockTime := op.BlockTime.getD env.now,
              txId := jsOrStr data.id (normalizeOperationId op.OperationId),
              operationId := op.OperationId }))
        op.OperationId
        { sendTime := some env.now, completionTime := some env.now,
          blockTime := some (op.BlockTime.getD env.now),
          block := some (jsOrInt op.Block (env.ledgerVersion * 10 + 1)) },
       Except.ok (jsOrStr data.id (normalizeOperationId op.OperationId))) := by
    simp [broadcast, hop, hfail', hor, hdup, hsim, hsend, hcomp, hA, hN]
  rw [hb]
  refine ⟨?_, ?_, ?_, ?_⟩ <;>
    by_cases htx : jsOrStr data.id (normalizeOperationId op.OperationId) = "" <;>
    simp [repoUpdate, logWrite, emit, jsTruthyStr, htx, List.drop_left, List.append_assoc,
      evBalance, evBalanceBase, evHistory, List.getLast?]

/-- C6 witness: the conservation theorem applied at a concrete simulated
broadcast of 1 XRP (1000000 base units) from `rFROM` to itself. -/
theorem broadcast_simulated_conservation_witness :
    (((broadcast stateA uuidA { id := none } envOk).1.events).drop
        stateA.events.length).filterMap evBalance =
      [{ address := "rFROM", assetId := "XRP", operationId := uuidA,
         affix := some (-1), affixInBaseUnit := some (-1000000), block := 421 },
       { address := "rFROM", assetId := "XRP", operationId := uuidA,
         affix := some 1, affixInBaseUnit := some 1000000, block := 421 }] :=
  (broadcast_simulated_conservation stateA uuidA { id := none } envOk opA 1 1000000
    rfl rfl rfl rfl (by decide) rfl rfl rfl).1

/-- C5: every execution of `broadcast` that reaches the ledger submission
first writes the hash-to-operation index entry and then attaches the hash to
the stored operation, both strictly before `submit`: whenever a submit event
appears among the events of the call, the call's events begin with exactly
that prefix.  The hypothesis that the stored OperationId is a UUID reflects
the route validation (`ParamIsUuid` / `IsUUID` on every operationId). -/
theorem broadcast_index_write_before_submit (s : ApiState) (operationId : String)
    (data : SignedTransactionModel) (env : BroadcastEnv) (op : OperationEntity)
    (hop : getOp s operationId = some op)
    (huuid : isUuid op.OperationId = true) :
    ∀ stx, Ev.submit stx ∈ ((broadcast s operationId data env).1.events).drop s.events.length →
      ∃ t rest,
        ((broadcast s operationId data env).1.events).drop s.events.length =
          Ev.indexWrite t op.OperationId ::
          Ev.opUpdate op.OperationId { txId := some t } ::
          Ev.submit stx :: rest := by
  intro stx hmem
  have htx : jsOrStr data.id (normalizeOperationId op.OperationId) ≠ "" := by
    unfold jsOrStr
    cases data.id with
    | none => exact normalizeOperationId_ne_empty _ huuid
    | some v =>
      show (if v = "" then normalizeOperationId op.OperationId else v) ≠ ""
      by_cases hv : v = ""
      · rw [if_pos hv]; exact normalizeOperationId_ne_empty _ huuid
      · rw [if_neg hv]; exact hv
  by_cases hfail : op.FailTime.isSome = true
  · simp [broadcast, hop, hfail, List.drop_length] at hmem
  by_cases hrun : (op.SendTime.isSome || op.CompletionTime.isSome) = true
  · simp [broadcast, hop, hfail, hrun, List.drop_length] at hmem
  by_cases hdup : (jsTruthyStr (getOperationIdByTxId s
      (jsOrStr data.id (normalizeOperationId op.OperationId))) &&
      (getOperationIdByTxId s (jsOrStr data.id (normalizeOperationId op.OperationId)) !=
        some op.OperationId)) = true
  · simp only [Bool.and_eq_true, bne_iff_ne, ne_eq] at hdup
    obtain ⟨hd1, hd2⟩ := hdup
    simp [broadcast, hop, hfail, hrun, hd1, hd2, repoUpdate, logWrite, emit, jsTruthyStr_none, jsTruthyStr_some,
      List.drop_left, List.append_assoc] at hmem
  have hdup' : (jsTruthyStr (getOperationIdByTxId s
      (jsOrStr data.id (normalizeOperationId op.OperationId))) &&
      (getOperationIdByTxId s (jsOrStr data.id (normalizeOperationId op.OperationId)) !=
        some op.OperationId)) = false := by simpa using hdup
  clear hdup
  by_cases hsig : jsTruthyStr data.signedTransaction = true
  · by_cases hres : env.submitResult = "tesSUCCESS"
    · have hst : strStartsWith "tesSUCCESS" "tem" = false := by decide
      simp [broadcast, hop, hfail, hrun, hdup', hsig, hres, hst, repoUpdate, logWrite, emit,
        jsTruthyStr_none, jsTruthyStr_some, htx, List.drop_left, List.append_assoc] at hmem ⊢
      obtain rfl := hmem
      rfl
    · by_cases hc1 : env.submitResult = "tefPAST_SEQ" ∨ env.submitResult = "tefMAX_LEDGER"
      · simp [broadcast, hop, hfail, hrun, hdup', hsig, hres, hc1, repoUpdate, logWrite, emit,
          jsTruthyStr_none, jsTruthyStr_some, htx, List.drop_left, List.append_assoc] at hmem ⊢
        obtain rfl := hmem
        rfl
      · by_cases hc2 : strStartsWith env.submitResult "tem" = true
        · simp [broadcast, hop, hfail, hrun, hdup', hsig, hres, hc1, hc2, repoUpdate, logWrite,
            emit, jsTruthyStr_none, jsTruthyStr_some, htx, List.drop_left, List.append_assoc] at hmem ⊢
          obtain rfl := hmem
          rfl
        · simp [broadcast, hop, hfail, hrun, hdup', hsig, hres, hc1, hc2, repoUpdate, logWrite,
            emit, jsTruthyStr_none, jsTruthyStr_some, htx, List.drop_left, List.append_assoc] at hmem ⊢
          obtain rfl := hmem
          rfl
  · have hsig' : jsTruthyStr data.signedTransaction = false := by simpa using hsig
    simp [broadcast, hop, hfail, hrun, hdup', hsig', repoUpdate, logWrite, emit,
      jsTruthyStr_none, jsTruthyStr_some, htx, List.drop_left, List.append_assoc] at hmem

/-- C5 witness: at a concrete real submission the events of the call begin
with the index write and the hash-attaching update, then the submit. -/
theorem broadcast_index_write_before_submit_witness :
    ∃ t rest,
      ((broadcast stateA uuidA { signedTransaction := some "STX", id := some "H1" } envOk).1.events).drop
          stateA.events.length =
        Ev.indexWrite t uuidA ::
        Ev.opUpdate uuidA { txId := some t } ::
        Ev.submit "STX" :: rest :=
  broadcast_index_write_before_submit stateA uuidA
    { signedTransaction := some "STX", id := some "H1" } envOk opA rfl (by decide)
    "STX" (by decide)

theorem getOp_repoUpsert_self (s : ApiState) (oid aid f t : String) (a : ℚ) (n : Int)
    (fee fb : ℚ) (exp : Option Int) (now : Nat) :
    getOp (repoUpsert s oid aid f t a n fee fb exp now) oid =
      some { (getOp s oid).getD { OperationId := oid } with
             AssetId := aid, FromAddress := f, ToAddress := t,
             Amount := some a, AmountInBaseUnit := some n, BuildTime := some now,
             Expiration := orElseOpt exp (((getOp s oid).getD { OperationId := oid }).Expiration),
             Fee := some fee, FeeInBaseUnit := some fb } := by
  unfold repoUpsert getOp
  by_cases ht : jsTruthyInt exp = true <;> simp [ht]

theorem opByExpiration_repoUpsert (s : ApiState) (oid aid f t : String) (a : ℚ) (n : Int)
    (fee fb : ℚ) (exp : Option Int) (now : Nat) :
    (repoUpsert s oid aid f t a n fee fb exp now).opByExpiration =
      (if jsTruthyInt exp then [(exp.getD 0, oid)] else []) ++ s.opByExpiration := by
  unfold repoUpsert
  by_cases ht : jsTruthyInt exp = true <;> simp [ht]

theorem buildSingleFinish_ok (s : ApiState) (req : BuildSingleRequest) (env : BuildEnv)
    (am : ℚ) (amb : Int) (fee fb : ℚ) (required : List (String × ℚ)) (fromBase tx : String)
    (hok : (buildSingleFinish s req env am amb fee fb required fromBase).2 = Except.ok tx) :
    buildSingleFinish s req env am amb fee fb required fromBase =
      (repoUpsert s req.operationId req.assetId req.fromAddress req.toAddress am amb fee fb
        (some (env.prepareMaxLedgerVersion * 10)) env.now, Except.ok env.prepareTxJSON) := by
  unfold buildSingleFinish at hok ⊢
  cases hfind : required.find? (fun p => insufficientBalance env.ledgerBalances p.1 p.2) with
  | some p => simp only [hfind] at hok; exact absurd hok (by simp)
  | none => simp only [hfind]

/-- C7 counterexample: a concrete successful cross-address build with
`preparePayment` returning `maxLedgerVersion = 7` persists Expiration 70, not
7 — the claimed equality with the ledger-version ceiling fails. -/
theorem buildSingle_expiration_counterexample :
    (buildSingle {} reqCross benvCross).2 = Except.ok "TXJSON" ∧
    benvCross.prepareMaxLedgerVersion = 7 ∧
    (getOp (buildSingle {} reqCross benvCross).1 reqCross.operationId).map
      (fun o => o.Expiration) = some (some 70) ∧
    (70 : Int) ≠ 7 :=
  ⟨by with_unfolding_all rfl, rfl, by with_unfolding_all rfl, by decide⟩

/-- C7 (amended): for every successful cross-address build, the Expiration
persisted on the operation equals 10 times the `maxLedgerVersion` returned by
`preparePayment`, and (for a nonzero ledger version) the expiration index
entry is keyed by that same scaled value. -/
theorem buildSingle_expiration (s : ApiState) (req : BuildSingleRequest) (env : BuildEnv)
    (tx : String)
    (hok : (buildSingle s req env).2 = Except.ok tx)
    (hcross : ¬(splitAddress req.fromAddress).1 = (splitAddress req.toAddress).1)
    (hmlv : env.prepareMaxLedgerVersion ≠ 0) :
    (∃ op', getOp (buildSingle s req env).1 req.operationId = some op' ∧
      op'.Expiration = some (env.prepareMaxLedgerVersion * 10)) ∧
    (buildSingle s req env).1.opByExpiration =
      (env.prepareMaxLedgerVersion * 10, req.operationId) :: s.opByExpiration := by
  have hT : jsTruthyInt (some (env.prepareMaxLedgerVersion * 10)) = true := by
    simp [jsTruthyInt]
    exact hmlv
  have hred : buildSingle s req env = buildSingleChecked s req env := by
    cases hgo : getOp s req.operationId with
    | none => simp [buildSingle, hgo]
    | some op =>
      by_cases hrun : op.isRunning = true
      · exfalso
        have hb : (buildSingle s req env).2 = Except.error
            { status := 409,
              message := some ("Operation [" ++ req.operationId ++ "] already " ++
                stateText (getState op)),
              errCode := none } := by
          simp [buildSingle, hgo, hrun]
        rw [hb] at hok
        exact absurd hok (by simp)
      · simp [buildSingle, hgo, hrun]
  rw [hred] at hok ⊢
  cases hasset : lookupAsset env.assets req.assetId with
  | none =>
    simp only [buildSingleChecked, hasset] at hok
    exact absurd hok (by simp)
  | some asset =>
    simp only [buildSingleChecked, hasset] at hok ⊢
    cases hparse : jsParseInt req.amount with
    | none =>
      simp only [hparse] at hok
      exact absurd hok (by simp)
    | some n =>
      simp only [hparse] at hok ⊢
      by_cases hn : n ≤ 0
      · rw [if_pos hn] at hok
        exact absurd hok (by simp)
      · rw [if_neg hn] at hok ⊢
        simp only [buildSingleCore] at hok ⊢
        rw [if_neg hcross] at hok ⊢
        by_cases hxrp : req.assetId = XRP
        · rw [if_pos hxrp] at hok ⊢
          by_cases hfee : jsTruthyBool req.includeFee = true ∧
              asset.fromBaseUnit n < env.feeAmount
          · rw [if_pos hfee] at hok
            exact absurd hok (by simp)
          · rw [if_neg hfee] at hok ⊢
            rw [buildSingleFinish_ok _ _ _ _ _ _ _ _ _ _ hok]
            constructor
            · simp only [getOp_repoUpsert_self]
              exact ⟨_, rfl, rfl⟩
            · simp only [opByExpiration_repoUpsert, hT, if_true]
              rfl
        · rw [if_neg hxrp] at hok ⊢
          rw [buildSingleFinish_ok _ _ _ _ _ _ _ _ _ _ hok]
          constructor
          · simp only [getOp_repoUpsert_self]
            exact ⟨_, rfl, rfl⟩
          · simp only [opByExpiration_repoUpsert, hT, if_true]
            rfl

/-- C7 witness: the amended theorem applied at the concrete cross-address
build whose `preparePayment` ceiling is 7. -/
theorem buildSingle_expiration_witness :
    ∃ op', getOp (buildSingle {} reqCross benvCross).1 reqCross.operationId = some op' ∧
      op'.Expiration = some (benvCross.prepareMaxLedgerVersion * 10) :=
  (buildSingle_expiration {} reqCross benvCross "TXJSON"
    (by with_unfolding_all rfl) (by decide) (by decide)).1

/-- C8 counterexample: the fractional amount string "5.7" does not denote a
positive integer, yet `buildSingle` does not fail InvalidAmount — `parseInt`
truncates it to 5 and the build succeeds, storing 5 base units. -/
theorem buildSingle_fractional_amount_counterexample :
    jsParseInt "5.7" = some 5 ∧
    (buildSingle {} reqFrac benvSim).2 = Except.ok DUMMY_TX ∧
    (getOp (buildSingle {} reqFrac benvSim).1 reqFrac.operationId).map
      (fun o => o.AmountInBaseUnit) = some (some 5) :=
  ⟨by decide, rfl, by decide⟩

/-- C8 (amended): once the conflict and asset guards pass, `buildSingle`
fails with the InvalidAmount error exactly when JS `parseInt` of the amount
string is NaN or nonpositive — so zero, negative and non-numeric strings
fail, while any string with a positive leading-integer prefix (including
fractional forms such as "5.7", silently truncated) passes — and in the
failing case the call returns with the state unchanged (no write of any
kind). -/
theorem buildSingle_invalid_amount (s : ApiState) (req : BuildSingleRequest) (env : BuildEnv)
    (asset : Asset)
    (hguard : ∀ op, getOp s req.operationId = some op → op.isRunning = false)
    (hasset : lookupAsset env.assets req.assetId = some asset) :
    ((buildSingle s req env).2 = Except.error (invalidAmountError req.amount) ↔
      (jsParseInt req.amount = none ∨ ∃ n, jsParseInt req.amount = some n ∧ n ≤ 0)) ∧
    ((jsParseInt req.amount = none ∨ ∃ n, jsParseInt req.amount = some n ∧ n ≤ 0) →
      buildSingle s req env = (s, Except.error (invalidAmountError req.amount))) := by
  have hred : buildSingle s req env = buildSingleChecked s req env := by
    cases hgo : getOp s req.operationId with
    | none => simp [buildSingle, hgo]
    | some op => simp [buildSingle, hgo, hguard op hgo]
  rw [hred]
  have hB : ∀ (_ : jsParseInt req.amount = none ∨ ∃ n, jsParseInt req.amount = some n ∧ n ≤ 0),
      buildSingleChecked s req env = (s, Except.error (invalidAmountError req.amount)) := by
    rintro (hnone | ⟨n, hsome, hn⟩)
    · simp [buildSingleChecked, hasset, hnone]
    · simp [buildSingleChecked, hasset, hsome, hn]
  have hG : ∀ n, jsParseInt req.amount = some n → ¬n ≤ 0 →
      (buildSingleChecked s req env).2 ≠ Except.error (invalidAmountError req.amount) := by
    intro n hsome hn
    simp only [buildSingleChecked, hasset, hsome]
    rw [if_neg hn]
    simp only [buildSingleCore]
    by_cases hsame : (splitAddress req.fromAddress).1 = (splitAddress req.toAddress).1
    · rw [if_pos hsame]
      by_cases hbal : (lookupAccountBalance env.accountBalances req.fromAddress
          req.assetId).getD 0 < n
      · rw [if_pos hbal]
        simp [invalidAmountError]
      · rw [if_neg hbal]
        simp
    · rw [if_neg hsame]
      by_cases hxrp : req.assetId = XRP
      · rw [if_pos hxrp]
        by_cases hfee : jsTruthyBool req.includeFee = true ∧
            asset.fromBaseUnit n < env.feeAmount
        · rw [if_pos hfee]
          simp [invalidAmountError]
        · rw [if_neg hfee]
          simp only [buildSingleFinish]
          split
          · simp [invalidAmountError]
          · simp
      · rw [if_neg hxrp]
        simp only [buildSingleFinish]
        split
        · simp [invalidAmountError]
        · simp
  refine ⟨⟨?_, fun hbad => by rw [hB hbad]⟩, fun hbad => hB hbad⟩
  intro h
  cases hp : jsParseInt req.amount with
  | none => exact Or.inl rfl
  | some n =>
    by_cases hn : n ≤ 0
    · exact Or.inr ⟨n, rfl, hn⟩
    · exact absurd h (hG n hp hn)

/-- C8 witness: the amended theorem applied to the non-numeric amount string
"abc" shows the call fails InvalidAmount with the state unchanged. -/
theorem buildSingle_invalid_amount_witness :
    buildSingle {} reqBad benvCross = ({}, Except.error (invalidAmountError "abc")) :=
  (buildSingle_invalid_amount {} reqBad benvCross assetXrp0
      (fun op h => by simp [getOp] at h) rfl).2 (Or.inl (by decide))

end RippleApi
